import Mathlib

/-!
Verification of the backend-sdk repository: a shallow embedding of
`preset_cli/cli/superset/sync/dbt/datasets.py`, `preset_cli/auth/lib.py`
and `scripts/extract_yamls.py`, together with theorems settling the
specification claims about them.

Python dictionaries are embedded as association lists with unique keys
maintained by an in-place-replacing insert, matching CPython insertion
order semantics.  JSON-ish Python values are embedded as `JVal`.
-/

set_option autoImplicit false

/-- A JSON-like Python value: None, bool, int, str, list, dict. -/
inductive JVal where
  | null
  | bool (b : Bool)
  | nat (n : Nat)
  | str (s : String)
  | arr (xs : List JVal)
  | obj (fields : List (String × JVal))
deriving Repr

/-- A Python dict with string keys (association list, first match wins). -/
abbrev Dict := List (String × JVal)

mutual

/-- Structural equality of `JVal`, mirroring Python `==` on these values. -/
def JVal.beq : JVal → JVal → Bool
  | .null, .null => true
  | .bool a, .bool b => a == b
  | .nat a, .nat b => a == b
  | .str a, .str b => a == b
  | .arr a, .arr b => JVal.beqList a b
  | .obj a, .obj b => JVal.beqFields a b
  | _, _ => false

/-- Pointwise equality of value lists. -/
def JVal.beqList : List JVal → List JVal → Bool
  | [], [] => true
  | a :: as, b :: bs => JVal.beq a b && JVal.beqList as bs
  | _, _ => false

/-- Pointwise equality of field lists. -/
def JVal.beqFields : List (String × JVal) → List (String × JVal) → Bool
  | [], [] => true
  | (k₁, v₁) :: as, (k₂, v₂) :: bs => k₁ == k₂ && JVal.beq v₁ v₂ && JVal.beqFields as bs
  | _, _ => false

end

instance : BEq JVal := ⟨JVal.beq⟩

/-- Python `d[k]` / `d.get(k)`: first entry with the given key. -/
def alookup {α : Type} (d : List (String × α)) (k : String) : Option α :=
  match d with
  | [] => none
  | (k₂, v) :: rest => if k₂ = k then some v else alookup rest k

/-- Python `d[k] = v`: replace the value in place if the key is present,
else append the pair, preserving insertion order. -/
def ainsert {α : Type} (d : List (String × α)) (k : String) (v : α) : List (String × α) :=
  match d with
  | [] => [(k, v)]
  | (k₂, v₂) :: rest => if k₂ = k then (k₂, v) :: rest else (k₂, v₂) :: ainsert rest k v

/-- Python `{**a, **b}`: entries of `b` inserted into `a` in order. -/
def dmerge {α : Type} (a b : List (String × α)) : List (String × α) :=
  b.foldl (fun acc kv => ainsert acc kv.1 kv.2) a

/-- Python `d.pop(k)` / key deletion: drop every entry with the given key. -/
def dremove {α : Type} (d : List (String × α)) (k : String) : List (String × α) :=
  d.filter (fun kv => kv.1 ≠ k)

/-- Python `k == s` for a dict key `k` of any type against a string `s`:
true exactly when `k` is the string `s`. -/
def jvalEqStr : JVal → String → Bool
  | .str t, s => t = s
  | _, _ => false

/-- Lookup in a dict whose keys are arbitrary Python values, by a string key. -/
def jalookupStr {α : Type} (d : List (JVal × α)) (s : String) : Option α :=
  match d with
  | [] => none
  | (k, v) :: rest => if jvalEqStr k s then some v else jalookupStr rest s

/-- Insert into a dict whose keys are arbitrary Python values. -/
def jinsert {α : Type} (d : List (JVal × α)) (k : JVal) (v : α) : List (JVal × α) :=
  match d with
  | [] => [(k, v)]
  | (k₂, v₂) :: rest => if k₂ == k then (k₂, v) :: rest else (k₂, v₂) :: jinsert rest k v

mutual

/-- `json.dumps` with default separators, restricted to the values of `JVal`. -/
def jsonDumps : JVal → String
  | .null => "null"
  | .bool b => if b then "true" else "false"
  | .nat n => toString n
  | .str s => "\"" ++ s ++ "\""
  | .arr xs => "[" ++ jsonDumpsList xs ++ "]"
  | .obj fs => "\x7b" ++ jsonDumpsFields fs ++ "\x7d"

/-- Comma-separated rendering of array elements. -/
def jsonDumpsList : List JVal → String
  | [] => ""
  | [x] => jsonDumps x
  | x :: xs => jsonDumps x ++ ", " ++ jsonDumpsList xs

/-- Comma-separated rendering of object fields. -/
def jsonDumpsFields : List (String × JVal) → String
  | [] => ""
  | [(k, v)] => "\"" ++ k ++ "\": " ++ jsonDumps v
  | (k, v) :: fs => "\"" ++ k ++ "\": " ++ jsonDumps v ++ ", " ++ jsonDumpsFields fs

end

/-- Python truthiness of a `JVal`. -/
def pyTruthy : JVal → Bool
  | .null => false
  | .bool b => b
  | .nat n => n != 0
  | .str s => s != ""
  | .arr xs => !xs.isEmpty
  | .obj fs => !fs.isEmpty

/-- Python `str()` of a `JVal` (containers rendered as JSON, which the
claims never exercise). -/
def pyStr : JVal → String
  | .null => "None"
  | .bool b => if b then "True" else "False"
  | .nat n => toString n
  | .str s => s
  | .arr xs => jsonDumps (.arr xs)
  | .obj fs => jsonDumps (.obj fs)

/-!
## Embedding of `preset_cli/cli/superset/sync/dbt/datasets.py`

`get_metrics_for_model` and `get_metric_expression` are imported there from
`preset_cli.cli.superset.sync.dbt.metrics`, a module of this repository that
is not part of the sources under verification; the sync functions below are
therefore parametrised over them (`gmfm`, `gme`).
-/

/-- A single quote character, used when rendering dbt `ref` strings. -/
def squoteChar : String := String.singleton (Char.ofNat 39)

/-- A dbt model record (`ModelSchema`).  `aliasName` embeds the `alias` key
(`alias` is a reserved command name in Lean).  `meta` is the free-form
`meta` mapping. -/
structure ModelSchema where
  unique_id : String
  name : String
  aliasName : Option String
  schema : String
  database : String
  description : Option String
  columns : Option (List (String × Option String))
  meta : Dict

/-- A dbt metric record (`MetricSchema`). -/
structure MetricSchema where
  name : String
  type : Option String
  calculation_method : Option String
  label : Option String
  description : Option String
  meta : Dict

/-- The relevant parts of a SQLAlchemy URL: driver name, host, database. -/
structure SAUrl where
  drivername : String
  host : String
  database : String

/-- The target database descriptor handed to `sync_datasets`, together with
the identifier-quoting function of its SQL dialect
(`engine.dialect.identifier_preparer.quote`). -/
structure DatabaseConn where
  id : Nat
  url : SAUrl
  quote : String → String

/-- The pure behaviour of the Superset client: what each read call returns
and whether dataset creation succeeds (`none` models a raised exception). -/
structure SupersetClient where
  get_datasets : Nat → String → String → List Dict
  get_dataset_metrics : JVal → List Dict
  get_dataset_columns : JVal → List Dict
  create_dataset : Dict → Option Dict

/-- A write call issued against the Superset API. -/
inductive ApiCall where
  | create (payload : Dict)
  | update (datasetId : JVal) (override_columns : Bool) (payload : Dict)
deriving Repr

/-- `DEFAULT_CERTIFICATION` from the source. -/
def DEFAULT_CERTIFICATION : Dict := [("details", JVal.str "This table is produced by dbt")]

/-- `model_in_database`: whether a model lives in the database of a
SQLAlchemy URL (BigQuery compares against the host). -/
def model_in_database (model : ModelSchema) (url : SAUrl) : Bool :=
  if url.drivername = "bigquery" then model.database == url.host
  else model.database == url.database

/-- `clean_metadata`: drop `changed_on`, `created_on` and `type_generic`. -/
def clean_metadata (metadata : Dict) : Dict :=
  metadata.filter (fun kv =>
    !(kv.1 == "changed_on" || kv.1 == "created_on" || kv.1 == "type_generic"))

/-- `model.get("alias") or model["name"]`: the alias unless missing or
falsy (empty). -/
def tableName (model : ModelSchema) : String :=
  match model.aliasName with
  | some a => if a = "" then model.name else a
  | none => model.name

/-- The keyword arguments `create_dataset` passes to
`client.create_dataset`: physical when the model is in the connection's
database, else virtual with a `SELECT * FROM` over the quoted
database.schema.name (the `.` join of the three quoted parts). -/
def create_dataset_payload (db : DatabaseConn) (model : ModelSchema) : Dict :=
  if model_in_database model db.url then
    [("database", JVal.nat db.id),
     ("schema", JVal.str model.schema),
     ("table_name", JVal.str (tableName model))]
  else
    [("database", JVal.nat db.id),
     ("schema", JVal.str model.schema),
     ("table_name", JVal.str (tableName model)),
     ("sql", JVal.str ("SELECT * FROM " ++ db.quote model.database ++ "." ++
        db.quote model.schema ++ "." ++ db.quote model.name))]

/-- `meta.pop("superset", {})`: the `superset` block and the remaining
meta.  A non-dict `superset` value makes the later `**` splices raise
(`TypeError`), embedded as an error. -/
def popSuperset (meta : Dict) : Except String (Dict × Dict) :=
  match alookup meta "superset" with
  | some (JVal.obj k) => Except.ok (k, dremove meta "superset")
  | none => Except.ok ([], meta)
  | some _ => Except.error "TypeError"

/-- The `certification or DEFAULT_CERTIFICATION` fallback (`or` is Python
truthiness: an empty dict argument also falls through to the default). -/
def defaultCert (certification : Option Dict) : JVal :=
  match certification with
  | some c => if c.isEmpty then JVal.obj DEFAULT_CERTIFICATION else JVal.obj c
  | none => JVal.obj DEFAULT_CERTIFICATION

/-- Lines 104-107: `model_kwargs["extra"].pop("certification")` with the
`KeyError` fallback.  Returns the resolved certification details and the
model kwargs after the in-place pop.  A non-dict `extra` raises
(`AttributeError`), embedded as an error. -/
def resolveCertification (certification : Option Dict) (model_kwargs : Dict) :
    Except String (JVal × Dict) :=
  match alookup model_kwargs "extra" with
  | some (JVal.obj e) =>
    match alookup e "certification" with
    | some v =>
      Except.ok (v, ainsert model_kwargs "extra" (JVal.obj (dremove e "certification")))
    | none => Except.ok (defaultCert certification, model_kwargs)
  | none => Except.ok (defaultCert certification, model_kwargs)
  | some _ => Except.error "AttributeError"

/-- `**(certification_info if certification_info["certification"] is not
None else {})`: the spliced certification entry, empty when the resolved
details are `None`. -/
def certSplice (certification_details : JVal) : Dict :=
  match certification_details with
  | JVal.null => []
  | v => [("certification", v)]

/-- Lines 131-143: the `extra` payload and the model kwargs after
`model_kwargs.pop("extra", {})`. -/
def buildExtra (model : ModelSchema) (certification_details : JVal)
    (model_kwargs : Dict) : Dict × Dict :=
  let base : Dict :=
    [("unique_id", JVal.str model.unique_id),
     ("depends_on", JVal.str ("ref(" ++ squoteChar ++ model.name ++ squoteChar ++ ")"))]
  let extraMk : Dict :=
    match alookup model_kwargs "extra" with
    | some (JVal.obj e) => e
    | _ => []
  (dmerge (dmerge base (certSplice certification_details)) extraMk,
   dremove model_kwargs "extra")

/-- `{metric["name"]: metric for metric in get_metrics_for_model(...)}`. -/
def buildModelMetrics (ms : List MetricSchema) : List (String × MetricSchema) :=
  ms.foldl (fun acc m => ainsert acc m.name m) []

/-- `{metric["metric_name"]: metric for metric in ...}` over the remote
metrics; a metric without `metric_name` raises `KeyError`. -/
def keyRemoteMetrics (ms : List Dict) : Except String (List (JVal × Dict)) :=
  ms.foldlM (fun acc m =>
    match alookup m "metric_name" with
    | some k => Except.ok (jinsert acc k m)
    | none => Except.error "KeyError") []

/-- `metric.get("type") or metric.get("calculation_method")` under Python
truthiness (an empty string also falls through). -/
def pyOrStr (a b : Option String) : Option String :=
  match a with
  | some s => if s = "" then b else some s
  | none => b

/-- An optional string as a Python value (`None` when absent). -/
def optStr : Option String → JVal
  | some s => JVal.str s
  | none => JVal.null

/-- Lines 162-181 body: one locally declared metric's update record, with
the remote server id carried over in merge mode. -/
def buildMetricDefinition (gme : String → List (String × MetricSchema) → String)
    (model_metrics : List (String × MetricSchema))
    (current_metrics : List (JVal × Dict))
    (merge_metadata : Bool) (name : String) (metric : MetricSchema) :
    Except String Dict :=
  match popSuperset metric.meta with
  | Except.error e => Except.error e
  | Except.ok (kwargs, meta) =>
    let metric_definition : Dict := dmerge
      [("expression", JVal.str (gme name model_metrics)),
       ("metric_name", JVal.str name),
       ("metric_type", optStr (pyOrStr metric.type metric.calculation_method)),
       ("verbose_name", JVal.str (metric.label.getD name)),
       ("description", JVal.str (metric.description.getD "")),
       ("extra", JVal.str (jsonDumps (JVal.obj meta)))] kwargs
    if merge_metadata then
      match jalookupStr current_metrics name with
      | some rm =>
        match alookup rm "id" with
        | some idv => Except.ok (ainsert metric_definition "id" idv)
        | none => Except.error "KeyError"
      | none => Except.ok metric_definition
    else Except.ok metric_definition

/-- Lines 151-160: remote metrics kept verbatim (after `clean_metadata`)
when not merging or when no local metric shares their name. -/
def keptRemote (merge_metadata : Bool) (current_metrics : List (JVal × Dict))
    (model_metrics : List (String × MetricSchema)) : List Dict :=
  (current_metrics.filter (fun p =>
    !merge_metadata || !(model_metrics.any (fun q => jvalEqStr p.1 q.1)))).map
    (fun p => clean_metadata p.2)

/-- Lines 162-181: the update records built for locally declared metrics
(skipped when not reloading, not merging, and the name already exists
remotely). -/
def builtLocal (gme : String → List (String × MetricSchema) → String)
    (model_metrics : List (String × MetricSchema))
    (current_metrics : List (JVal × Dict))
    (reload_columns merge_metadata : Bool) : Except String (List Dict) :=
  (model_metrics.filter (fun p =>
    reload_columns || (jalookupStr current_metrics p.1).isNone || merge_metadata)).mapM
    (fun p => buildMetricDefinition gme model_metrics current_metrics merge_metadata p.1 p.2)

/-- Lines 145-181: the `current_metrics` mapping and the full
`dataset_metrics` list. -/
def computeDatasetMetrics (gme : String → List (String × MetricSchema) → String)
    (reload_columns merge_metadata : Bool)
    (remote_metrics : List Dict) (model_metrics : List (String × MetricSchema)) :
    Except String (List (JVal × Dict) × List Dict) :=
  match (if !reload_columns || merge_metadata
         then keyRemoteMetrics remote_metrics
         else Except.ok []) with
  | Except.error e => Except.error e
  | Except.ok current_metrics =>
    match builtLocal gme model_metrics current_metrics reload_columns merge_metadata with
    | Except.error e => Except.error e
    | Except.ok built =>
      Except.ok (current_metrics, keptRemote merge_metadata current_metrics model_metrics ++ built)

/-- Lines 184-193: the primary update payload: computed fields, then the
remaining `meta.superset` entries spliced over them, then `external_url`
assigned afterwards when a prefix is configured (`yarl`'s
`with_fragment` modelled as appending `#` plus the fragment). -/
def buildUpdatePayload (model : ModelSchema) (extraPayload : Dict)
    (disallow_edits reload_columns : Bool) (dataset_metrics : List Dict)
    (model_kwargs : Dict) (external_url_base : String) : Dict :=
  let update : Dict := dmerge
    [("description", JVal.str (model.description.getD "")),
     ("extra", JVal.str (jsonDumps (JVal.obj extraPayload))),
     ("is_managed_externally", JVal.bool disallow_edits),
     ("metrics", JVal.arr ((if reload_columns then [] else dataset_metrics).map JVal.obj))]
    model_kwargs
  if external_url_base ≠ "" then
    ainsert update "external_url"
      (JVal.str (external_url_base ++ "#!/model/" ++ model.unique_id))
  else update

/-- Lines 203-218: the column list sent by the final update call.  The
source rebinds the loop variable (`column = clean_metadata(column)`), so
only the in-place `description`/`verbose_name` assignments reach the list
that is sent; the cleaning and the `is_active` deletion are applied to a
discarded copy.  A remote column without `column_name` raises
`KeyError`. -/
def applyColumnMetadata (cols : List (String × Option String))
    (current_columns : List Dict) : Except String (List Dict) :=
  let column_metadata : List (String × (String × Option String)) :=
    cols.foldl (fun acc c => ainsert acc c.1 c) []
  current_columns.mapM (fun column =>
    match alookup column "column_name" with
    | none => Except.error "KeyError"
    | some (JVal.str name) =>
      match alookup column_metadata name with
      | some c =>
        Except.ok (ainsert (ainsert column "description" (JVal.str (c.2.getD "")))
          "verbose_name" (JVal.str c.1))
      | none => Except.ok column
    | some _ => Except.ok column)

/-- Lines 131-226: the per-model work after the dataset has been resolved
or created: extra payload, metric reconciliation, the primary update, the
optional metrics-only second update, and the column sync.  Returns the
write calls issued (appended to `calls₀`) and the per-model result
(`none` only on an uncaught exception, carried in the `Except`). -/
def afterDataset (gmfm : ModelSchema → List MetricSchema → List MetricSchema)
    (gme : String → List (String × MetricSchema) → String)
    (client : SupersetClient)
    (disallow_edits : Bool) (external_url_base : String)
    (reload_columns merge_metadata : Bool)
    (metrics : List MetricSchema) (model : ModelSchema)
    (certification_details : JVal) (model_kwargs : Dict)
    (calls₀ : List ApiCall) (dataset : Dict) :
    List ApiCall × Except String (Option Dict) :=
  match alookup dataset "id" with
  | none => (calls₀, Except.error "KeyError")
  | some idv =>
    let ep := buildExtra model certification_details model_kwargs
    let model_metrics := buildModelMetrics (gmfm model metrics)
    match computeDatasetMetrics gme reload_columns merge_metadata
        (client.get_dataset_metrics idv) model_metrics with
    | Except.error e => (calls₀, Except.error e)
    | Except.ok (_, dataset_metrics) =>
      let update₁ := buildUpdatePayload model ep.1 disallow_edits reload_columns
        dataset_metrics ep.2 external_url_base
      let calls₁ := calls₀ ++ [ApiCall.update idv reload_columns update₁]
      let calls₂ :=
        if reload_columns && !dataset_metrics.isEmpty then
          calls₁ ++ [ApiCall.update idv false
            [("metrics", JVal.arr (dataset_metrics.map JVal.obj))]]
        else calls₁
      match model.columns with
      | some cols =>
        if !cols.isEmpty then
          match applyColumnMetadata cols (client.get_dataset_columns idv) with
          | Except.error e => (calls₂, Except.error e)
          | Except.ok newCols =>
            (calls₂ ++ [ApiCall.update idv reload_columns
              [("columns", JVal.arr (newCols.map JVal.obj))]],
             Except.ok (some dataset))
        else (calls₂, Except.ok (some dataset))
      | none => (calls₂, Except.ok (some dataset))

/-- Lines 100-226: the body of `sync_datasets`' per-model loop.  Returns
the write calls issued for this model and either the dataset appended to
the result list (`some`), a skipped model after a failed creation
(`none`), or an uncaught exception aborting the run (`Except.error`). -/
def processModel (gmfm : ModelSchema → List MetricSchema → List MetricSchema)
    (gme : String → List (String × MetricSchema) → String)
    (client : SupersetClient) (db : DatabaseConn)
    (disallow_edits : Bool) (external_url_base : String)
    (certification : Option Dict)
    (reload_columns merge_metadata : Bool)
    (metrics : List MetricSchema) (model : ModelSchema) :
    List ApiCall × Except String (Option Dict) :=
  match popSuperset model.meta with
  | Except.error e => ([], Except.error e)
  | Except.ok (model_kwargs₀, _) =>
    match resolveCertification certification model_kwargs₀ with
    | Except.error e => ([], Except.error e)
    | Except.ok (certification_details, model_kwargs₁) =>
      let existing := client.get_datasets db.id model.schema (tableName model)
      if existing.length > 1 then ([], Except.error "More than one dataset found")
      else
        match existing.head? with
        | some dataset =>
          afterDataset gmfm gme client disallow_edits external_url_base
            reload_columns merge_metadata metrics model
            certification_details model_kwargs₁ [] dataset
        | none =>
          let payload := create_dataset_payload db model
          match client.create_dataset payload with
          | none => ([ApiCall.create payload], Except.ok none)
          | some dataset =>
            afterDataset gmfm gme client disallow_edits external_url_base
              reload_columns merge_metadata metrics model
              certification_details model_kwargs₁ [ApiCall.create payload] dataset

/-- The model loop of `sync_datasets`: write calls accumulate across
models; an uncaught exception aborts the remaining models but the calls
already issued stand. -/
def syncRun (gmfm : ModelSchema → List MetricSchema → List MetricSchema)
    (gme : String → List (String × MetricSchema) → String)
    (client : SupersetClient) (db : DatabaseConn)
    (disallow_edits : Bool) (external_url_base : String)
    (certification : Option Dict)
    (reload_columns merge_metadata : Bool)
    (metrics : List MetricSchema) :
    List ModelSchema → List ApiCall × Except String (List Dict)
  | [] => ([], Except.ok [])
  | model :: rest =>
    match processModel gmfm gme client db disallow_edits external_url_base
        certification reload_columns merge_metadata metrics model with
    | (calls, Except.error e) => (calls, Except.error e)
    | (calls, Except.ok dopt) =>
      match syncRun gmfm gme client db disallow_edits external_url_base
          certification reload_columns merge_metadata metrics rest with
      | (calls₂, Except.ok ds) => (calls ++ calls₂, Except.ok (dopt.toList ++ ds))
      | (calls₂, Except.error e) => (calls ++ calls₂, Except.error e)

/-- `sync_datasets`: the write calls issued and, on success, the list of
datasets processed. -/
def sync_datasets (gmfm : ModelSchema → List MetricSchema → List MetricSchema)
    (gme : String → List (String × MetricSchema) → String)
    (client : SupersetClient) (models : List ModelSchema)
    (metrics : List MetricSchema) (db : DatabaseConn)
    (disallow_edits : Bool) (external_url_base : String)
    (certification : Option Dict)
    (reload_columns merge_metadata : Bool) :
    List ApiCall × Except String (List Dict) :=
  syncRun gmfm gme client db disallow_edits external_url_base certification
    reload_columns merge_metadata metrics models

/-!
## Embedding of `get_oauth_access_token` (`preset_cli/auth/lib.py`)
-/

/-- The parts of an HTTP response the function inspects: status code, the
parsed JSON body, and the raw text. -/
structure HttpResponse where
  status_code : Nat
  jsonBody : Dict
  text : String

/-- The error message raised on a non-200 status. -/
def oauthFailureMessage (status : Nat) (text : String) : String :=
  "Failed to obtain access token. Status code: " ++ toString status ++
    ", text: " ++ text

/-- `get_oauth_access_token` response handling: on 200, `token_data["access_token"]`
(a missing field raises `KeyError`); otherwise raise with the status code
and raw body in the message. -/
def get_oauth_access_token (response : HttpResponse) : Except String JVal :=
  if response.status_code = 200 then
    match alookup response.jsonBody "access_token" with
    | some v => Except.ok v
    | none => Except.error "KeyError"
  else
    Except.error (oauthFailureMessage response.status_code response.text)

/-!
## Embedding of `extract_datasets_from_zip` (`scripts/extract_yamls.py`)

Path handling follows `os.path` (posix) semantics; member names and
substring search are over characters, as in Python `str`.
-/

/-- Whether `needle` is an initial segment of `hay`. -/
def leadsList : List Char → List Char → Bool
  | [], _ => true
  | _ :: _, [] => false
  | a :: as, b :: bs => a == b && leadsList as bs

/-- First index at which `needle` occurs in `hay`, starting from offset `i`. -/
def subIdxAux (needle : List Char) : List Char → Nat → Option Nat
  | [], i => if leadsList needle [] then some i else none
  | c :: t, i => if leadsList needle (c :: t) then some i else subIdxAux needle t (i + 1)

/-- Python `s.index(sub)` as an option (`none` models the `ValueError`). -/
def subIdx (s sub : String) : Option Nat := subIdxAux sub.data s.data 0

/-- Python `sub in s` (substring containment). -/
def containsSub (s sub : String) : Bool := (subIdx s sub).isSome

/-- Python `s.endswith(suffix)`. -/
def endsWithStr (s suffix : String) : Bool := leadsList suffix.data.reverse s.data.reverse

/-- Whether a path begins with a slash (`os.path.join` restarts there). -/
def startsWithSlash (s : String) : Bool :=
  match s.data with
  | [] => false
  | c :: _ => c == '/'

/-- Whether a path ends with a slash. -/
def endsWithSlash (s : String) : Bool :=
  match s.data.getLast? with
  | some c => c == '/'
  | none => false

/-- `os.path.join` for two components (posix). -/
def pathJoin (a b : String) : String :=
  if startsWithSlash b then b
  else if a = "" then b
  else if endsWithSlash a then a ++ b
  else a ++ "/" ++ b

/-- Index of the last slash in a string, if any. -/
def lastSlashIdxAux : List Char → Nat → Option Nat → Option Nat
  | [], _, acc => acc
  | c :: t, i, acc => lastSlashIdxAux t (i + 1) (if c == '/' then some i else acc)

/-- Index of the last slash in a string, if any. -/
def lastSlashIdx (s : String) : Option Nat := lastSlashIdxAux s.data 0 none

/-- `os.path.basename` (posix). -/
def basenameStr (s : String) : String :=
  match lastSlashIdx s with
  | none => s
  | some i => s.drop (i + 1)

/-- Strip trailing slashes. -/
def rstripSlash (s : String) : String :=
  String.mk ((s.data.reverse.dropWhile (fun c => c == '/')).reverse)

/-- `os.path.dirname` (posix): everything up to the last slash, with
trailing slashes stripped unless the result is all slashes. -/
def dirnameStr (s : String) : String :=
  match lastSlashIdx s with
  | none => ""
  | some i =>
    let head := s.take (i + 1)
    if head.data.all (fun c => c == '/') then head else rstripSlash head

/-- What happens to one archive member. -/
inductive ExtractOutcome where
  | skip
  | write (path : String)
  | err (msg : String)
deriving Repr

/-- Lines 35-61: the destination of a member given its output-relative
path, including the uuid-based rename of YAML members. -/
def memberDestination (output_folder relative_path : String)
    (parsed : Except String JVal) : ExtractOutcome :=
  let filename := basenameStr relative_path
  let dirname := dirnameStr relative_path
  let extract_path := pathJoin output_folder relative_path
  if endsWithStr filename ".yaml" then
    match parsed with
    | Except.error _ => ExtractOutcome.write extract_path
    | Except.ok (JVal.obj d) =>
      match alookup d "uuid" with
      | some u =>
        if pyTruthy u then
          ExtractOutcome.write (pathJoin (pathJoin output_folder dirname) (pyStr u ++ ".yaml"))
        else ExtractOutcome.write extract_path
      | none => ExtractOutcome.write extract_path
    | Except.ok _ => ExtractOutcome.err "AttributeError"
  else ExtractOutcome.write extract_path
/-- Lines 19-61 of `extract_yamls.py`, for a single member: members whose
name contains `metadata.yaml` are skipped; with a folder filter the
relative path starts at the filter's first occurrence (non-matching
members are skipped); without one, everything up to and including the
first slash is stripped (`str.index` raises when there is none).  A
`.yaml` member whose parsed content carries a truthy top-level `uuid` is
redirected to `<uuid>.yaml` in the same directory; a parse failure keeps
the original name; a parsed non-dict makes `.get` raise. -/
def processMember (output_folder : String) (yaml_folder : Option String)
    (filename : String) (parsed : Except String JVal) : ExtractOutcome :=
  if containsSub filename "metadata.yaml" then ExtractOutcome.skip
  else
    match yaml_folder with
    | some f =>
      if containsSub filename f then
        match subIdx filename f with
        | some start_idx => memberDestination output_folder (filename.drop start_idx) parsed
        | none => ExtractOutcome.err "ValueError"
      else ExtractOutcome.skip
    | none =>
      match subIdx filename "/" with
      | some i => memberDestination output_folder (filename.drop (i + 1)) parsed
      | none => ExtractOutcome.err "ValueError"


/-- The composition of the certification pop (lines 104-109) and the
`extra` build (lines 131-143): the `extra` payload stored for a model. -/
def extraForModel (model : ModelSchema) (certification : Option Dict)
    (model_kwargs : Dict) : Except String Dict :=
  match resolveCertification certification model_kwargs with
  | Except.error e => Except.error e
  | Except.ok (cd, mk₁) => Except.ok (buildExtra model cd mk₁).1

/-- The update records built from the locally declared metrics alone —
what lines 162-181 produce when reloading without merging, where the
remote metrics are never consulted. -/
def localMetricDefs (gme : String → List (String × MetricSchema) → String)
    (model_metrics : List (String × MetricSchema)) : Except String (List Dict) :=
  model_metrics.mapM (fun p => buildMetricDefinition gme model_metrics [] false p.1 p.2)

/-- The `metrics` field of the first call of a trace, when that call is an
update. -/
def primaryUpdateMetrics : List ApiCall → Option JVal
  | ApiCall.update _ _ payload :: _ => alookup payload "metrics"
  | _ => none

/-- Whether a metric update record carries the string `name` as its
`metric_name` field. -/
def metricNamed (name : String) (d : Dict) : Bool :=
  match alookup d "metric_name" with
  | some u => jvalEqStr u name
  | none => false

/-!
## Concrete fixtures used by witnesses and counterexamples
-/

/-- A minimal model fixture: `orders` in `db1.public`, no extra metadata. -/
def modelFx : ModelSchema :=
  { unique_id := "model.x.orders", name := "orders", aliasName := none,
    schema := "public", database := "db1", description := none,
    columns := none, meta := [] }

/-- A non-BigQuery connection URL on the given database. -/
def urlFx (dbname : String) : SAUrl :=
  { drivername := "postgresql", host := "h", database := dbname }

/-- A connection fixture with double-quote identifier quoting. -/
def dbFx (dbname : String) : DatabaseConn :=
  { id := 1, url := urlFx dbname, quote := fun s => "\"" ++ s ++ "\"" }

/-- A client fixture: `get_datasets` and `get_dataset` return the given
data, creation always fails. -/
def clientFx (found : List Dict) (remoteMetrics : List Dict)
    (remoteColumns : List Dict) : SupersetClient :=
  { get_datasets := fun _ _ _ => found,
    get_dataset_metrics := fun _ => remoteMetrics,
    get_dataset_columns := fun _ => remoteColumns,
    create_dataset := fun _ => none }

/-- A client fixture with no existing datasets where creation succeeds and
returns the given dataset. -/
def clientCreateFx (created : Dict) : SupersetClient :=
  { get_datasets := fun _ _ _ => [],
    get_dataset_metrics := fun _ => [],
    get_dataset_columns := fun _ => [],
    create_dataset := fun _ => some created }

/-- A metric-set extractor fixture that declares every metric for every
model (the identity filter). -/
def gmfmFx : ModelSchema → List MetricSchema → List MetricSchema := fun _ ms => ms

/-- A metric-expression fixture. -/
def gmeFx : String → List (String × MetricSchema) → String := fun n _ => "SUM(" ++ n ++ ")"

/-- A remote metric fixture named `m1` with server id 7 and a field that
update payloads must not carry. -/
def remoteMetricFx : Dict :=
  [("metric_name", JVal.str "m1"), ("id", JVal.nat 7),
   ("expression", JVal.str "COUNT(*)"), ("changed_on", JVal.str "2024-01-01")]

/-- `remoteMetricFx` after `clean_metadata`. -/
def remoteMetricCleanFx : Dict :=
  [("metric_name", JVal.str "m1"), ("id", JVal.nat 7),
   ("expression", JVal.str "COUNT(*)")]

/-- A remote metric fixture named `m2` with server id 9. -/
def remoteM2Fx : Dict := [("metric_name", JVal.str "m2"), ("id", JVal.nat 9)]

/-- A local metric fixture named `m2` with no superset overrides. -/
def metricFx : MetricSchema :=
  { name := "m2", type := some "count", calculation_method := none,
    label := none, description := none, meta := [] }

/-- The update record `sync_datasets` builds for `metricFx` under `gmeFx`. -/
def metricFxDefinition : Dict :=
  [("expression", JVal.str "SUM(m2)"), ("metric_name", JVal.str "m2"),
   ("metric_type", JVal.str "count"), ("verbose_name", JVal.str "m2"),
   ("description", JVal.str ""), ("extra", JVal.str "\x7b\x7d")]

/-!
## Helper lemmas
-/

-- Basic association-list lemmas.

theorem alookup_ainsert_self {α : Type} (d : List (String × α)) (k : String) (v : α) :
    alookup (ainsert d k v) k = some v := by
  induction d with
  | nil => simp [ainsert, alookup]
  | cons hd tl ih =>
    obtain ⟨k₂, v₂⟩ := hd
    by_cases h : k₂ = k
    · simp [ainsert, alookup, h]
    · simp [ainsert, alookup, h, ih]

theorem alookup_ainsert_ne {α : Type} (d : List (String × α)) (k k' : String) (v : α)
    (h : k ≠ k') : alookup (ainsert d k v) k' = alookup d k' := by
  induction d with
  | nil => simp [ainsert, alookup, h]
  | cons hd tl ih =>
    obtain ⟨k₂, v₂⟩ := hd
    by_cases h₂ : k₂ = k
    · subst h₂
      simp [ainsert, alookup, h]
    · simp [ainsert, alookup, h₂, ih]

theorem alookup_none_forall {α : Type} (d : List (String × α)) (k : String)
    (h : alookup d k = none) : ∀ p ∈ d, p.1 ≠ k := by
  induction d with
  | nil => simp
  | cons hd tl ih =>
    obtain ⟨k₂, v₂⟩ := hd
    by_cases h₂ : k₂ = k
    · simp [alookup, h₂] at h
    · intro p hp
      rcases List.mem_cons.mp hp with hp | hp
      · simpa [hp] using h₂
      · exact ih (by simpa [alookup, h₂] using h) p hp

theorem dmerge_alookup_of_forall_ne {α : Type} (a b : List (String × α)) (k : String)
    (h : ∀ p ∈ b, p.1 ≠ k) : alookup (dmerge a b) k = alookup a k := by
  induction b generalizing a with
  | nil => rfl
  | cons hd tl ih =>
    obtain ⟨k₂, v₂⟩ := hd
    have hne : k₂ ≠ k := h (k₂, v₂) (by simp)
    have : alookup (dmerge (ainsert a k₂ v₂) tl) k = alookup (ainsert a k₂ v₂) k :=
      ih (ainsert a k₂ v₂) (fun p hp => h p (by simp [hp]))
    simpa [dmerge, alookup_ainsert_ne a k₂ k v₂ hne] using this

theorem dmerge_alookup_absent {α : Type} (a b : List (String × α)) (k : String)
    (h : alookup b k = none) : alookup (dmerge a b) k = alookup a k :=
  dmerge_alookup_of_forall_ne a b k (alookup_none_forall b k h)

theorem dmerge_alookup_mem {α : Type} (a b : List (String × α)) (k : String) (v : α)
    (hnd : (b.map Prod.fst).Nodup) (h : alookup b k = some v) :
    alookup (dmerge a b) k = some v := by
  induction b generalizing a with
  | nil => simp [alookup] at h
  | cons hd tl ih =>
    obtain ⟨k₂, v₂⟩ := hd
    simp only [List.map_cons, List.nodup_cons] at hnd
    by_cases h₂ : k₂ = k
    · subst h₂
      simp [alookup] at h
      subst h
      have habs : alookup tl k₂ = none := by
        cases hv : alookup tl k₂ with
        | none => rfl
        | some w =>
          exfalso
          apply hnd.1
          clear ih hnd
          induction tl with
          | nil => simp [alookup] at hv
          | cons hd₃ tl₃ ih₃ =>
            obtain ⟨k₃, v₃⟩ := hd₃
            by_cases h₃ : k₃ = k₂
            · simp [h₃]
            · simp only [alookup, if_neg h₃] at hv
              simp [ih₃ hv]
      have := dmerge_alookup_absent (ainsert a k₂ v₂) tl k₂ habs
      simpa [dmerge, alookup_ainsert_self] using this
    · simp only [alookup, if_neg h₂] at h
      have := ih (ainsert a k₂ v₂) hnd.2 h
      simpa [dmerge] using this

theorem alookup_dremove_ne {α : Type} (d : List (String × α)) (k k' : String)
    (h : k ≠ k') : alookup (dremove d k) k' = alookup d k' := by
  induction d with
  | nil => rfl
  | cons hd tl ih =>
    obtain ⟨k₂, v₂⟩ := hd
    by_cases h₂ : k₂ = k
    · subst h₂
      have hr : dremove ((k₂, v₂) :: tl) k₂ = dremove tl k₂ := by
        simp [dremove]
      have hne : k₂ ≠ k' := h
      rw [hr, ih]
      simp [alookup, hne]
    · have hr : dremove ((k₂, v₂) :: tl) k = (k₂, v₂) :: dremove tl k := by
        simp [dremove, h₂]
      rw [hr]
      by_cases h₃ : k₂ = k'
      · simp [alookup, h₃]
      · simp [alookup, h₃, ih]

theorem dremove_forall_ne {α : Type} (d : List (String × α)) (k : String) :
    ∀ p ∈ dremove d k, p.1 ≠ k := by
  intro p hp
  unfold dremove at hp
  have := List.of_mem_filter hp
  simpa using this


/-!
## Claim theorems
-/

/-- The boolean `model_in_database` decides exactly the spec condition:
declared database equals the connection's database, or its host for
BigQuery. -/
theorem model_in_database_iff (model : ModelSchema) (url : SAUrl) :
    model_in_database model url = true ↔
      (if url.drivername = "bigquery" then model.database = url.host
       else model.database = url.database) := by
  unfold model_in_database
  split <;> simp

/-- C6: when the model's declared database equals the target connection's
database (host for BigQuery), `create_dataset` issues a physical creation
request `{database, schema, table_name}` with no `sql` key; otherwise it
issues a virtual request that additionally carries
`sql = SELECT * FROM <quoted database>.<quoted schema>.<quoted name>`,
quoted by the connection's dialect. -/
theorem c6_create_dataset_physical_vs_virtual (db : DatabaseConn) (model : ModelSchema) :
    ((if db.url.drivername = "bigquery" then model.database = db.url.host
      else model.database = db.url.database) →
      create_dataset_payload db model =
        [("database", JVal.nat db.id), ("schema", JVal.str model.schema),
         ("table_name", JVal.str (tableName model))] ∧
      alookup (create_dataset_payload db model) "sql" = none) ∧
    (¬ (if db.url.drivername = "bigquery" then model.database = db.url.host
        else model.database = db.url.database) →
      create_dataset_payload db model =
        [("database", JVal.nat db.id), ("schema", JVal.str model.schema),
         ("table_name", JVal.str (tableName model)),
         ("sql", JVal.str ("SELECT * FROM " ++ db.quote model.database ++ "." ++
            db.quote model.schema ++ "." ++ db.quote model.name))]) := by
  constructor
  · intro h
    have hm : model_in_database model db.url = true := (model_in_database_iff model db.url).mpr h
    constructor
    · simp [create_dataset_payload, hm]
    · simp [create_dataset_payload, hm, alookup]
  · intro h
    have hm : model_in_database model db.url = false := by
      cases hmb : model_in_database model db.url with
      | false => rfl
      | true => exact absurd ((model_in_database_iff model db.url).mp hmb) h
    simp [create_dataset_payload, hm]

/-- C6 witness: `orders` in `db1` against a `db1` connection is physical
with no `sql`; against a `db2` connection it is virtual with the quoted
`SELECT * FROM "db1"."public"."orders"`. -/
theorem c6_create_dataset_witness :
    (create_dataset_payload (dbFx "db1") modelFx =
      [("database", JVal.nat 1), ("schema", JVal.str "public"),
       ("table_name", JVal.str "orders")] ∧
     alookup (create_dataset_payload (dbFx "db1") modelFx) "sql" = none) ∧
    create_dataset_payload (dbFx "db2") modelFx =
      [("database", JVal.nat 1), ("schema", JVal.str "public"),
       ("table_name", JVal.str "orders"),
       ("sql", JVal.str "SELECT * FROM \"db1\".\"public\".\"orders\"")] := by
  constructor
  · exact (c6_create_dataset_physical_vs_virtual (dbFx "db1") modelFx).1 (by decide)
  · have := (c6_create_dataset_physical_vs_virtual (dbFx "db2") modelFx).2 (by decide)
    simpa using this

/-- C7 (amended): on a 200 response the `access_token` field of the JSON
body is returned, and a `KeyError` is raised when the field is absent
(not the empty string); any other status raises an error whose message
carries the HTTP status code and the raw response body. -/
theorem c7_oauth_token_response_handling (response : HttpResponse) (v : JVal) :
    (response.status_code = 200 →
      alookup response.jsonBody "access_token" = some v →
      get_oauth_access_token response = Except.ok v) ∧
    (response.status_code = 200 →
      alookup response.jsonBody "access_token" = none →
      get_oauth_access_token response = Except.error "KeyError") ∧
    (response.status_code ≠ 200 →
      get_oauth_access_token response =
        Except.error ("Failed to obtain access token. Status code: " ++
          toString response.status_code ++ ", text: " ++ response.text)) := by
  refine ⟨fun h hv => ?_, fun h hv => ?_, fun h => ?_⟩
  · simp [get_oauth_access_token, h, hv]
  · simp [get_oauth_access_token, h, hv]
  · simp [get_oauth_access_token, oauthFailureMessage, h]

/-- C7 counterexample: a 200 response whose body lacks `access_token`
raises `KeyError` instead of yielding the empty string, contradicting the
claim as stated. -/
theorem c7_oauth_missing_token_counterexample :
    get_oauth_access_token ⟨200, [], ""⟩ = Except.error "KeyError" ∧
    get_oauth_access_token ⟨200, [], ""⟩ ≠ Except.ok (JVal.str "") := by
  refine ⟨rfl, ?_⟩
  intro h
  have h₂ : (Except.error "KeyError" : Except String JVal) = Except.ok (JVal.str "") :=
    (Eq.symm (rfl : get_oauth_access_token ⟨200, [], ""⟩ = Except.error "KeyError")).trans h
  simp at h₂

/-- C7 witness: a 200 response with a token yields it; a 404 response
raises with the status code and body in the message. -/
theorem c7_oauth_token_witness :
    get_oauth_access_token ⟨200, [("access_token", JVal.str "tok")], ""⟩ =
      Except.ok (JVal.str "tok") ∧
    get_oauth_access_token ⟨404, [], "nope"⟩ =
      Except.error ("Failed to obtain access token. Status code: " ++
        toString 404 ++ ", text: " ++ "nope") := by
  constructor
  · exact (c7_oauth_token_response_handling ⟨200, [("access_token", JVal.str "tok")], ""⟩
      (JVal.str "tok")).1 rfl rfl
  · exact (c7_oauth_token_response_handling ⟨404, [], "nope"⟩ JVal.null).2.2 (by decide)

/-- C9 counterexample: the top-level member `metadata.yaml` contains no
slash, yet it is skipped by the `metadata.yaml` filter before the
`str.index` call, so no exception is raised — the claim as stated fails
on it. -/
theorem c9_metadata_member_counterexample :
    processMember "out" none "metadata.yaml" (Except.ok JVal.null) = ExtractOutcome.skip ∧
    processMember "out" none "metadata.yaml" (Except.ok JVal.null) ≠
      ExtractOutcome.err "ValueError" := by
  refine ⟨rfl, ?_⟩
  intro h
  have h₂ : ExtractOutcome.skip = ExtractOutcome.err "ValueError" :=
    (Eq.symm (rfl : processMember "out" none "metadata.yaml" (Except.ok JVal.null) =
      ExtractOutcome.skip)).trans h
  simp at h₂

/-- C9 (amended): with no folder filter, any member whose path contains no
slash and which does not contain `metadata.yaml` makes
`extract_datasets_from_zip` raise (`str.index` fails) instead of
extracting the member. -/
theorem c9_no_slash_member_raises (output_folder filename : String)
    (parsed : Except String JVal)
    (h₁ : containsSub filename "metadata.yaml" = false)
    (h₂ : subIdx filename "/" = none) :
    processMember output_folder none filename parsed = ExtractOutcome.err "ValueError" := by
  simp [processMember, h₁, h₂]

/-- C9 witness: the top-level member `top.txt` raises. -/
theorem c9_no_slash_member_witness :
    processMember "out" none "top.txt" (Except.ok JVal.null) = ExtractOutcome.err "ValueError" :=
  c9_no_slash_member_raises "out" "top.txt" (Except.ok JVal.null) rfl rfl

/-- C10: any key remaining in the model's `meta.superset` block (after
`extra` and `certification` are popped) overrides the computed field of
the same name in the primary update payload — `description`, `extra`,
`is_managed_externally` and `metrics` are all silently replaced. -/
theorem c10_superset_overrides_computed_fields (model : ModelSchema)
    (extraPayload : Dict) (disallow_edits reload_columns : Bool)
    (dataset_metrics : List Dict) (model_kwargs : Dict)
    (external_url_base : String) (k : String) (v : JVal)
    (hnd : (model_kwargs.map Prod.fst).Nodup)
    (hk : k = "description" ∨ k = "extra" ∨ k = "is_managed_externally" ∨ k = "metrics")
    (hv : alookup model_kwargs k = some v) :
    alookup (buildUpdatePayload model extraPayload disallow_edits reload_columns
      dataset_metrics model_kwargs external_url_base) k = some v := by
  have hne : "external_url" ≠ k := by
    rcases hk with h | h | h | h <;> subst h <;> decide
  have hmerge := dmerge_alookup_mem
    [("description", JVal.str (model.description.getD "")),
     ("extra", JVal.str (jsonDumps (JVal.obj extraPayload))),
     ("is_managed_externally", JVal.bool disallow_edits),
     ("metrics", JVal.arr ((if reload_columns then [] else dataset_metrics).map JVal.obj))]
    model_kwargs k v hnd hv
  have heq : buildUpdatePayload model extraPayload disallow_edits reload_columns
      dataset_metrics model_kwargs external_url_base =
      (if external_url_base ≠ "" then
        ainsert (dmerge
          [("description", JVal.str (model.description.getD "")),
           ("extra", JVal.str (jsonDumps (JVal.obj extraPayload))),
           ("is_managed_externally", JVal.bool disallow_edits),
           ("metrics", JVal.arr ((if reload_columns then [] else dataset_metrics).map JVal.obj))]
          model_kwargs) "external_url"
          (JVal.str (external_url_base ++ "#!/model/" ++ model.unique_id))
      else dmerge
          [("description", JVal.str (model.description.getD "")),
           ("extra", JVal.str (jsonDumps (JVal.obj extraPayload))),
           ("is_managed_externally", JVal.bool disallow_edits),
           ("metrics", JVal.arr ((if reload_columns then [] else dataset_metrics).map JVal.obj))]
          model_kwargs) := rfl
  by_cases hp : external_url_base ≠ ""
  · rw [heq, if_pos hp, alookup_ainsert_ne _ _ _ _ hne]
    exact hmerge
  · rw [heq, if_neg hp]
    exact hmerge

/-- C10 witness: a `meta.superset` block `{"metrics": "boom"}` replaces
the computed `metrics` field of the primary payload. -/
theorem c10_superset_overrides_witness :
    alookup (buildUpdatePayload modelFx [] false true []
      [("metrics", JVal.str "boom")] "") "metrics" = some (JVal.str "boom") :=
  c10_superset_overrides_computed_fields modelFx [] false true []
    [("metrics", JVal.str "boom")] "" "metrics" (JVal.str "boom")
    (by simp) (by simp) rfl

/-- C4: a model whose dataset lookup by (database id, schema, table name)
returns more than one remote dataset makes `sync_datasets` raise, with no
create or update call issued for that model, and the rest of the run
aborted: no subsequent model is processed and no further call is made. -/
theorem c4_multiple_matches_abort
    (gmfm : ModelSchema → List MetricSchema → List MetricSchema)
    (gme : String → List (String × MetricSchema) → String)
    (client : SupersetClient) (db : DatabaseConn)
    (disallow_edits : Bool) (external_url_base : String)
    (certification : Option Dict) (reload_columns merge_metadata : Bool)
    (metrics : List MetricSchema) (model : ModelSchema) (rest : List ModelSchema)
    (mk mrest : Dict) (cd : JVal) (mk₁ : Dict) (d₁ d₂ : Dict) (l : List Dict)
    (hpop : popSuperset model.meta = Except.ok (mk, mrest))
    (hcert : resolveCertification certification mk = Except.ok (cd, mk₁))
    (hexist : client.get_datasets db.id model.schema (tableName model) = d₁ :: d₂ :: l) :
    processModel gmfm gme client db disallow_edits external_url_base certification
      reload_columns merge_metadata metrics model =
      ([], Except.error "More than one dataset found") ∧
    syncRun gmfm gme client db disallow_edits external_url_base certification
      reload_columns merge_metadata metrics (model :: rest) =
      ([], Except.error "More than one dataset found") := by
  have hlen : (d₁ :: d₂ :: l).length > 1 := by
    simp [List.length]
  have hp : processModel gmfm gme client db disallow_edits external_url_base certification
      reload_columns merge_metadata metrics model =
      ([], Except.error "More than one dataset found") := by
    unfold processModel
    simp only [hpop, hcert, hexist]
    simp [hlen]
  refine ⟨hp, ?_⟩
  unfold syncRun
  rw [hp]

/-- C4 witness: two remote datasets match `orders`, so the run aborts with
no write call, and the second model in the batch is never processed. -/
theorem c4_multiple_matches_witness :
    processModel gmfmFx gmeFx (clientFx [[("id", JVal.nat 1)], [("id", JVal.nat 2)]] [] [])
      (dbFx "db1") false "" none true false [] modelFx =
      ([], Except.error "More than one dataset found") ∧
    syncRun gmfmFx gmeFx (clientFx [[("id", JVal.nat 1)], [("id", JVal.nat 2)]] [] [])
      (dbFx "db1") false "" none true false [] [modelFx, modelFx] =
      ([], Except.error "More than one dataset found") :=
  c4_multiple_matches_abort gmfmFx gmeFx
    (clientFx [[("id", JVal.nat 1)], [("id", JVal.nat 2)]] [] [])
    (dbFx "db1") false "" none true false [] modelFx [modelFx]
    [] [] (JVal.obj DEFAULT_CERTIFICATION) [] [("id", JVal.nat 1)] [("id", JVal.nat 2)] []
    rfl rfl rfl

/-- `certSplice` of a non-None value is the singleton certification entry. -/
theorem certSplice_ne_null (cd : JVal) (h : cd ≠ JVal.null) :
    certSplice cd = [("certification", cd)] := by
  cases cd <;> simp_all [certSplice]

/-- The resolved default certification is never `None`. -/
theorem defaultCert_ne_null (certification : Option Dict) :
    defaultCert certification ≠ JVal.null := by
  cases certification with
  | none => simp [defaultCert]
  | some c =>
    by_cases hc : c.isEmpty <;> simp [defaultCert, hc]

/-- The base `extra` entries carry no `certification` key. -/
theorem alookup_extraBase_certification (model : ModelSchema) :
    alookup [("unique_id", JVal.str model.unique_id),
      ("depends_on", JVal.str ("ref(" ++ squoteChar ++ model.name ++ squoteChar ++ ")"))]
      "certification" = none := by
  simp [alookup]

/-- C3 (amended): the certification stored in a model's `extra` payload is
the model's own `meta.superset.extra.certification` when present; else the
call-level certification argument when given and non-empty (Python
truthiness: an empty dict falls through); else the dbt default; and an
explicitly null override suppresses the `certification` key entirely. -/
theorem c3_certification_resolution (model : ModelSchema)
    (certification : Option Dict) (model_kwargs e c : Dict) (v : JVal) :
    (alookup model_kwargs "extra" = some (JVal.obj e) →
      alookup e "certification" = some v → v ≠ JVal.null →
      (extraForModel model certification model_kwargs).map
        (fun d => alookup d "certification") = Except.ok (some v)) ∧
    (alookup model_kwargs "extra" = some (JVal.obj e) →
      alookup e "certification" = some JVal.null →
      (extraForModel model certification model_kwargs).map
        (fun d => alookup d "certification") = Except.ok none) ∧
    (alookup model_kwargs "extra" = some (JVal.obj e) →
      alookup e "certification" = none →
      (extraForModel model certification model_kwargs).map
        (fun d => alookup d "certification") =
        Except.ok (some (defaultCert certification))) ∧
    (alookup model_kwargs "extra" = none →
      (extraForModel model certification model_kwargs).map
        (fun d => alookup d "certification") =
        Except.ok (some (defaultCert certification))) ∧
    (defaultCert none = JVal.obj DEFAULT_CERTIFICATION) ∧
    (c.isEmpty = false → defaultCert (some c) = JVal.obj c) ∧
    (defaultCert (some []) = JVal.obj DEFAULT_CERTIFICATION) := by
  have hbase : ∀ w : JVal,
      alookup (dmerge [("unique_id", JVal.str model.unique_id),
        ("depends_on", JVal.str ("ref(" ++ squoteChar ++ model.name ++ squoteChar ++ ")"))]
        [("certification", w)]) "certification" = some w := by
    intro w
    rw [show dmerge [("unique_id", JVal.str model.unique_id),
        ("depends_on", JVal.str ("ref(" ++ squoteChar ++ model.name ++ squoteChar ++ ")"))]
        [("certification", w)] =
      ainsert [("unique_id", JVal.str model.unique_id),
        ("depends_on", JVal.str ("ref(" ++ squoteChar ++ model.name ++ squoteChar ++ ")"))]
        "certification" w from rfl]
    exact alookup_ainsert_self _ _ _
  refine ⟨fun hx hc hv => ?_, fun hx hc => ?_, fun hx hc => ?_, fun hx => ?_, rfl,
    fun hc => ?_, rfl⟩
  · simp only [extraForModel, resolveCertification, hx, hc, buildExtra, Except.map]
    rw [show (match alookup (ainsert model_kwargs "extra"
          (JVal.obj (dremove e "certification"))) "extra" with
        | some (JVal.obj e₂) => e₂
        | _ => ([] : Dict)) = dremove e "certification" by
      rw [alookup_ainsert_self]]
    rw [dmerge_alookup_of_forall_ne _ _ _ (dremove_forall_ne e "certification")]
    rw [certSplice_ne_null v hv, hbase v]
  · simp only [extraForModel, resolveCertification, hx, hc, buildExtra, Except.map]
    rw [show (match alookup (ainsert model_kwargs "extra"
          (JVal.obj (dremove e "certification"))) "extra" with
        | some (JVal.obj e₂) => e₂
        | _ => ([] : Dict)) = dremove e "certification" by
      rw [alookup_ainsert_self]]
    rw [dmerge_alookup_of_forall_ne _ _ _ (dremove_forall_ne e "certification")]
    rw [show certSplice JVal.null = [] from rfl,
      show ∀ d : Dict, dmerge d [] = d from fun _ => rfl]
    rw [alookup_extraBase_certification model]
  · simp only [extraForModel, resolveCertification, hx, hc, buildExtra, Except.map]
    rw [dmerge_alookup_of_forall_ne _ e _ (alookup_none_forall e "certification" hc)]
    rw [certSplice_ne_null _ (defaultCert_ne_null certification), hbase _]
  · simp only [extraForModel, resolveCertification, hx, buildExtra, Except.map]
    rw [show ∀ d : Dict, dmerge d [] = d from fun _ => rfl]
    rw [certSplice_ne_null _ (defaultCert_ne_null certification), hbase _]
  · simp [defaultCert, hc]

/-- C3 counterexample: with no model override and the call-level
certification given as the empty dict, the stored certification is the
dbt default, not the given argument — `certification or DEFAULT` uses
Python truthiness, so the claim as stated fails. -/
theorem c3_empty_certification_counterexample :
    (extraForModel modelFx (some []) []).map (fun d => alookup d "certification") =
      Except.ok (some (JVal.obj DEFAULT_CERTIFICATION)) ∧
    JVal.obj DEFAULT_CERTIFICATION ≠ JVal.obj [] := by
  refine ⟨rfl, ?_⟩
  simp [DEFAULT_CERTIFICATION]

/-- C3 witness: a model override wins; with none, a non-empty call-level
certification becomes the stored value; an explicitly null override
suppresses the key. -/
theorem c3_certification_resolution_witness :
    (extraForModel modelFx none [("extra", JVal.obj [("certification", JVal.str "gold")])]).map
      (fun d => alookup d "certification") = Except.ok (some (JVal.str "gold")) ∧
    (extraForModel modelFx (some [("details", JVal.str "x")]) []).map
      (fun d => alookup d "certification") =
      Except.ok (some (defaultCert (some [("details", JVal.str "x")]))) ∧
    (extraForModel modelFx none [("extra", JVal.obj [("certification", JVal.null)])]).map
      (fun d => alookup d "certification") = Except.ok none := by
  refine ⟨?_, ?_, ?_⟩
  · exact (c3_certification_resolution modelFx none
      [("extra", JVal.obj [("certification", JVal.str "gold")])]
      [("certification", JVal.str "gold")] [] (JVal.str "gold")).1 rfl rfl (by simp)
  · exact (c3_certification_resolution modelFx (some [("details", JVal.str "x")]) []
      [] [] JVal.null).2.2.2.1 rfl
  · exact (c3_certification_resolution modelFx none
      [("extra", JVal.obj [("certification", JVal.null)])]
      [("certification", JVal.null)] [] JVal.null).2.1 rfl rfl

/-- Appending a non-empty string never yields the empty string. -/
theorem append_ne_empty_right (a b : String) (h : b ≠ "") : a ++ b ≠ "" := by
  intro hc
  apply h
  apply String.ext
  have h₂ := congrArg String.data hc
  simp only [String.data_append] at h₂
  exact (List.append_eq_nil.mp h₂).2

/-- A leading slash only depends on the first (non-empty) component. -/
theorem startsWithSlash_append (a b : String) (hb : b ≠ "") :
    startsWithSlash (b ++ a) = startsWithSlash b := by
  unfold startsWithSlash
  rw [String.data_append]
  cases hd : b.data with
  | nil => exact absurd (String.ext hd) hb
  | cons c t => simp

/-- A trailing slash only depends on the last (non-empty) component. -/
theorem endsWithSlash_append (a b : String) (hb : b ≠ "") :
    endsWithSlash (a ++ b) = endsWithSlash b := by
  unfold endsWithSlash
  rw [String.data_append, List.getLast?_append]
  cases hg : b.data.getLast? with
  | none => exact absurd (String.ext (by simpa using hg)) hb
  | some c => simp [Option.or]

/-- `os.path.join` of two clean components is slash-separated
concatenation. -/
theorem pathJoin_eq (a b : String) (h₁ : startsWithSlash b = false)
    (h₂ : a ≠ "") (h₃ : endsWithSlash a = false) :
    pathJoin a b = a ++ "/" ++ b := by
  simp [pathJoin, h₁, h₂, h₃]

/-- C8: with folder filter `datasets`, the member `a/datasets/b/m.yaml` is
written to `<output>/datasets/b/m.yaml` (on a parse failure, and when the
parsed content has no `uuid`); when its content parses to a dict with a
top-level `uuid` of `X`, it is written to `<output>/datasets/b/X.yaml`
instead. -/
theorem c8_extract_member_paths (out X : String) (d : Dict) (e : String)
    (hout : out ≠ "") (hout₂ : endsWithSlash out = false)
    (hX : X ≠ "") (hX₂ : startsWithSlash X = false) :
    (processMember out (some "datasets") "a/datasets/b/m.yaml" (Except.error e) =
      ExtractOutcome.write (out ++ "/datasets/b/m.yaml")) ∧
    (alookup d "uuid" = none →
      processMember out (some "datasets") "a/datasets/b/m.yaml" (Except.ok (JVal.obj d)) =
      ExtractOutcome.write (out ++ "/datasets/b/m.yaml")) ∧
    (alookup d "uuid" = some (JVal.str X) →
      processMember out (some "datasets") "a/datasets/b/m.yaml" (Except.ok (JVal.obj d)) =
      ExtractOutcome.write (out ++ "/datasets/b/" ++ X ++ ".yaml")) := by
  have hred : ∀ parsed, processMember out (some "datasets") "a/datasets/b/m.yaml" parsed =
      memberDestination out "datasets/b/m.yaml" parsed := fun _ => rfl
  have hpath₁ : pathJoin out "datasets/b/m.yaml" = out ++ "/datasets/b/m.yaml" := by
    rw [pathJoin_eq out "datasets/b/m.yaml" (by decide) hout hout₂]
    apply String.ext
    simp only [String.data_append, List.append_assoc]
    simp
  have hpath₂ : pathJoin (pathJoin out "datasets/b") (X ++ ".yaml") =
      out ++ "/datasets/b/" ++ X ++ ".yaml" := by
    rw [pathJoin_eq out "datasets/b" (by decide) hout hout₂]
    have ha : (out ++ "/" ++ "datasets/b") ≠ "" := append_ne_empty_right _ _ (by decide)
    have hb : startsWithSlash (X ++ ".yaml") = false := by
      rw [startsWithSlash_append _ X hX]
      exact hX₂
    have hc : endsWithSlash (out ++ "/" ++ "datasets/b") = false := by
      rw [endsWithSlash_append (out ++ "/") "datasets/b" (by decide)]
      rfl
    rw [pathJoin_eq _ _ hb ha hc]
    apply String.ext
    simp only [String.data_append, List.append_assoc]
    simp
  refine ⟨?_, fun huuid => ?_, fun huuid => ?_⟩
  · rw [hred]
    rw [show memberDestination out "datasets/b/m.yaml" (Except.error e) =
      ExtractOutcome.write (pathJoin out "datasets/b/m.yaml") from rfl]
    rw [hpath₁]
  · rw [hred]
    simp only [memberDestination]
    simp only [huuid]
    rw [show endsWithStr (basenameStr "datasets/b/m.yaml") ".yaml" = true from rfl]
    simp only [if_true, ite_true]
    rw [hpath₁]
  · rw [hred]
    simp only [memberDestination]
    simp only [huuid]
    rw [show endsWithStr (basenameStr "datasets/b/m.yaml") ".yaml" = true from rfl]
    have ht : pyTruthy (JVal.str X) = true := by
      simp [pyTruthy, hX]
    simp only [ht, if_true, ite_true]
    rw [show pyStr (JVal.str X) = X from rfl]
    rw [show dirnameStr "datasets/b/m.yaml" = "datasets/b" from rfl]
    rw [hpath₂]

/-- C8 witness: concrete output folder `out` and uuid `X`. -/
theorem c8_extract_member_witness :
    (processMember "out" (some "datasets") "a/datasets/b/m.yaml" (Except.error "bad") =
      ExtractOutcome.write ("out" ++ "/datasets/b/m.yaml")) ∧
    (processMember "out" (some "datasets") "a/datasets/b/m.yaml"
      (Except.ok (JVal.obj [("name", JVal.str "m")])) =
      ExtractOutcome.write ("out" ++ "/datasets/b/m.yaml")) ∧
    (processMember "out" (some "datasets") "a/datasets/b/m.yaml"
      (Except.ok (JVal.obj [("uuid", JVal.str "X")])) =
      ExtractOutcome.write ("out" ++ "/datasets/b/" ++ "X" ++ ".yaml")) := by
  have h := c8_extract_member_paths "out" "X" [("name", JVal.str "m")] "bad"
    (by decide) rfl (by decide) rfl
  have h₂ := c8_extract_member_paths "out" "X" [("uuid", JVal.str "X")] "bad"
    (by decide) rfl (by decide) rfl
  exact ⟨h.1, h.2.1 rfl, h₂.2.2 rfl⟩

/-- C2 (code bug): the source's column loop rebinds its loop variable
(`column = clean_metadata(column)`), so cleaning and the null `is_active`
deletion act on a discarded copy.  The column list the final update call
carries still holds `changed_on`, `type_generic` and the null `is_active`,
while the in-place `description`/`verbose_name` assignments do land —
contradicting the cleanup the source's own comments (and the linked
issue 163) require. -/
theorem c2_columns_not_cleaned_code_bug :
    applyColumnMetadata [("c", some "our column")]
      [[("column_name", JVal.str "c"), ("changed_on", JVal.str "2024-01-01"),
        ("type_generic", JVal.nat 1), ("is_active", JVal.null)]] =
      Except.ok [[("column_name", JVal.str "c"), ("changed_on", JVal.str "2024-01-01"),
        ("type_generic", JVal.nat 1), ("is_active", JVal.null),
        ("description", JVal.str "our column"), ("verbose_name", JVal.str "c")]] ∧
    (processModel gmfmFx gmeFx
      (clientFx [[("id", JVal.nat 5)]] []
        [[("column_name", JVal.str "c"), ("changed_on", JVal.str "2024-01-01"),
          ("type_generic", JVal.nat 1), ("is_active", JVal.null)]])
      (dbFx "db1") false "" none true false []
      { modelFx with columns := some [("c", some "our column")] }).1.drop 1 =
      [ApiCall.update (JVal.nat 5) true
        [("columns", JVal.arr
          [JVal.obj
            [("column_name", JVal.str "c"), ("changed_on", JVal.str "2024-01-01"),
             ("type_generic", JVal.nat 1), ("is_active", JVal.null),
             ("description", JVal.str "our column"), ("verbose_name", JVal.str "c")]])]] :=
  ⟨rfl, rfl⟩

/-- C1 counterexample, two concrete runs with `reload_columns=True`:
(i) with `merge_metadata=True`, a remote-only metric `m1` and a local
metric `m2`, the secondary call's metrics list also carries the remote
metric, so it is not exactly the locally declared metrics; (ii) a
`meta.superset` block `{"metrics": "boom"}` makes the primary call's
metrics field `"boom"` rather than the empty list. -/
theorem c1_reload_metrics_counterexample :
    ((processModel gmfmFx gmeFx (clientFx [[("id", JVal.nat 5)]] [remoteMetricFx] [])
        (dbFx "db1") false "" none true true [metricFx] modelFx).1.drop 1 =
      [ApiCall.update (JVal.nat 5) false
        [("metrics", JVal.arr [JVal.obj remoteMetricCleanFx, JVal.obj metricFxDefinition])]] ∧
     localMetricDefs gmeFx (buildModelMetrics (gmfmFx modelFx [metricFx])) =
      Except.ok [metricFxDefinition] ∧
     [JVal.obj remoteMetricCleanFx, JVal.obj metricFxDefinition] ≠
      [JVal.obj metricFxDefinition]) ∧
    ((processModel gmfmFx gmeFx (clientFx [[("id", JVal.nat 5)]] [] [])
        (dbFx "db1") false "" none true false []
        { modelFx with meta := [("superset", JVal.obj [("metrics", JVal.str "boom")])] }).1.length = 1 ∧
     primaryUpdateMetrics (processModel gmfmFx gmeFx (clientFx [[("id", JVal.nat 5)]] [] [])
        (dbFx "db1") false "" none true false []
        { modelFx with meta := [("superset", JVal.obj [("metrics", JVal.str "boom")])] }).1 =
      some (JVal.str "boom") ∧
     some (JVal.str "boom") ≠ some (JVal.arr [])) := by
  refine ⟨⟨rfl, rfl, ?_⟩, rfl, rfl, ?_⟩
  · intro h
    have := congrArg List.length h
    simp at this
  · intro h
    simp at h

/-- The certification pop only touches the `extra` key of the superset
block: every other key is untouched. -/
theorem resolveCertification_alookup_ne (certification : Option Dict)
    (mk : Dict) (cd : JVal) (mk₁ : Dict) (k : String)
    (h : resolveCertification certification mk = Except.ok (cd, mk₁))
    (hk : k ≠ "extra") : alookup mk₁ k = alookup mk k := by
  unfold resolveCertification at h
  cases hx : alookup mk "extra" with
  | none =>
    simp only [hx] at h
    injection h with hp
    injection hp with hcd hmk
    subst hmk
    rfl
  | some v =>
    simp only [hx] at h
    cases v with
    | obj e =>
      cases hc : alookup e "certification" with
      | none =>
        simp only [hc] at h
        injection h with hp
        injection hp with hcd hmk
        subst hmk
        rfl
      | some w =>
        simp only [hc] at h
        injection h with hp
        injection hp with hcd hmk
        subst hmk
        exact alookup_ainsert_ne mk "extra" k _ (fun hkk => hk hkk.symm)
    | null => simp at h
    | bool b => simp at h
    | nat n => simp at h
    | str s => simp at h
    | arr xs => simp at h

/-- With `reload_columns=True` and `merge_metadata=False`, the metric
reconciliation ignores the remote metrics entirely and produces exactly
the locally declared metric definitions. -/
theorem computeDatasetMetrics_reload_no_merge
    (gme : String → List (String × MetricSchema) → String)
    (remote : List Dict) (mm : List (String × MetricSchema)) :
    computeDatasetMetrics gme true false remote mm =
      (localMetricDefs gme mm).map (fun dm => (([] : List (JVal × Dict)), dm)) := by
  unfold computeDatasetMetrics builtLocal localMetricDefs keptRemote
  simp only [Bool.not_true, Bool.false_or, Bool.true_or, Bool.or_false,
    Bool.false_eq_true, if_false, ite_false, List.filter_true, List.filter_nil,
    List.map_nil]
  cases hl : mm.mapM (fun p => buildMetricDefinition gme mm [] false p.1 p.2) with
  | error e => rfl
  | ok built => rfl

/-- C1 (amended): for every model processed with `reload_columns=True`
and `merge_metadata=False` whose `meta.superset` block has no `metrics`
key — whether its dataset already exists (exactly one match) or is
freshly created (zero matches, successful create, recorded in the `pre`
prefix) — the primary update call passes `override_columns=True` and
metrics equal to the empty list, and, whenever the computed metrics list
`dm` (exactly the definitions built from the locally declared metrics;
remote metrics are ignored in this mode) is non-empty, the very next
call is a secondary update with `override_columns=False` carrying
exactly that list.  (With `merge_metadata=True` the secondary call also
carries remote-only metrics, and a `meta.superset` `metrics` key
overrides the primary call's empty list; see the counterexample.) -/
theorem c1_reload_two_phase_metrics
    (gmfm : ModelSchema → List MetricSchema → List MetricSchema)
    (gme : String → List (String × MetricSchema) → String)
    (client : SupersetClient) (db : DatabaseConn)
    (disallow_edits : Bool) (external_url_base : String)
    (certification : Option Dict) (metrics : List MetricSchema)
    (model : ModelSchema) (mk mrest : Dict) (cd : JVal) (mk₁ : Dict)
    (ds : Dict) (idv : JVal) (dm : List Dict)
    (hpop : popSuperset model.meta = Except.ok (mk, mrest))
    (hmk : alookup mk "metrics" = none)
    (hcert : resolveCertification certification mk = Except.ok (cd, mk₁))
    (hds : client.get_datasets db.id model.schema (tableName model) = [ds] ∨
      (client.get_datasets db.id model.schema (tableName model) = [] ∧
       client.create_dataset (create_dataset_payload db model) = some ds))
    (hid : alookup ds "id" = some idv)
    (hdm : localMetricDefs gme (buildModelMetrics (gmfm model metrics)) = Except.ok dm) :
    ∃ pre rest,
      (pre = [] ∨ pre = [ApiCall.create (create_dataset_payload db model)]) ∧
      (processModel gmfm gme client db disallow_edits external_url_base certification
          true false metrics model).1 =
        pre ++ ApiCall.update idv true
          (buildUpdatePayload model (buildExtra model cd mk₁).1 disallow_edits true dm
            (buildExtra model cd mk₁).2 external_url_base) ::
        ((if dm.isEmpty then [] else
          [ApiCall.update idv false [("metrics", JVal.arr (dm.map JVal.obj))]]) ++ rest) ∧
      alookup (buildUpdatePayload model (buildExtra model cd mk₁).1 disallow_edits true dm
        (buildExtra model cd mk₁).2 external_url_base) "metrics" = some (JVal.arr []) := by
  have hmk₁ : alookup mk₁ "metrics" = none := by
    rw [resolveCertification_alookup_ne certification mk cd mk₁ "metrics" hcert (by decide)]
    exact hmk
  have hmk₂ : alookup (buildExtra model cd mk₁).2 "metrics" = none := by
    rw [show (buildExtra model cd mk₁).2 = dremove mk₁ "extra" from rfl]
    rw [alookup_dremove_ne mk₁ "extra" "metrics" (by decide)]
    exact hmk₁
  have hupd : alookup (buildUpdatePayload model (buildExtra model cd mk₁).1 disallow_edits true
      dm (buildExtra model cd mk₁).2 external_url_base) "metrics" = some (JVal.arr []) := by
    have heq : buildUpdatePayload model (buildExtra model cd mk₁).1 disallow_edits true
        dm (buildExtra model cd mk₁).2 external_url_base =
        (if external_url_base ≠ "" then
          ainsert (dmerge
            [("description", JVal.str (model.description.getD "")),
             ("extra", JVal.str (jsonDumps (JVal.obj (buildExtra model cd mk₁).1))),
             ("is_managed_externally", JVal.bool disallow_edits),
             ("metrics", JVal.arr (([] : List Dict).map JVal.obj))]
            (buildExtra model cd mk₁).2) "external_url"
            (JVal.str (external_url_base ++ "#!/model/" ++ model.unique_id))
        else dmerge
            [("description", JVal.str (model.description.getD "")),
             ("extra", JVal.str (jsonDumps (JVal.obj (buildExtra model cd mk₁).1))),
             ("is_managed_externally", JVal.bool disallow_edits),
             ("metrics", JVal.arr (([] : List Dict).map JVal.obj))]
            (buildExtra model cd mk₁).2) := rfl
    have hbase : alookup (dmerge
        [("description", JVal.str (model.description.getD "")),
         ("extra", JVal.str (jsonDumps (JVal.obj (buildExtra model cd mk₁).1))),
         ("is_managed_externally", JVal.bool disallow_edits),
         ("metrics", JVal.arr (([] : List Dict).map JVal.obj))]
        (buildExtra model cd mk₁).2) "metrics" = some (JVal.arr []) := by
      rw [dmerge_alookup_absent _ _ _ hmk₂]
      simp [alookup]
    by_cases hp : external_url_base ≠ ""
    · rw [heq, if_pos hp, alookup_ainsert_ne _ _ _ _ (by decide), hbase]
    · rw [heq, if_neg hp, hbase]
  have hcompute₂ : computeDatasetMetrics gme true false (client.get_dataset_metrics idv)
      (buildModelMetrics (gmfm model metrics)) = Except.ok ([], dm) := by
    rw [computeDatasetMetrics_reload_no_merge, hdm]
    rfl
  have htrace : ∀ calls₀ : List ApiCall,
      ∃ rest,
        (afterDataset gmfm gme client disallow_edits external_url_base true false metrics
          model cd mk₁ calls₀ ds).1 =
          calls₀ ++ ApiCall.update idv true
            (buildUpdatePayload model (buildExtra model cd mk₁).1 disallow_edits true dm
              (buildExtra model cd mk₁).2 external_url_base) ::
          ((if dm.isEmpty then [] else
            [ApiCall.update idv false [("metrics", JVal.arr (dm.map JVal.obj))]]) ++ rest) := by
    intro calls₀
    unfold afterDataset
    simp only [hid, hcompute₂, Bool.true_and]
    cases hcols : model.columns with
    | none =>
      refine ⟨[], ?_⟩
      cases hdmE : dm.isEmpty with
      | true => simp [hdmE]
      | false => simp [hdmE]
    | some cols =>
      by_cases hce : cols.isEmpty
      · refine ⟨[], ?_⟩
        cases hdmE : dm.isEmpty with
        | true => simp [hce, hdmE]
        | false => simp [hce, hdmE]
      · cases happly : applyColumnMetadata cols (client.get_dataset_columns idv) with
        | error e =>
          refine ⟨[], ?_⟩
          cases hdmE : dm.isEmpty with
          | true => simp [hce, happly, hdmE]
          | false => simp [hce, happly, hdmE]
        | ok newCols =>
          refine ⟨[ApiCall.update idv true
            [("columns", JVal.arr (newCols.map JVal.obj))]], ?_⟩
          cases hdmE : dm.isEmpty with
          | true => simp [hce, happly, hdmE]
          | false => simp [hce, happly, hdmE]
  rcases hds with h₁ | ⟨h₁, h₂⟩
  · have heqp : processModel gmfm gme client db disallow_edits external_url_base certification
        true false metrics model = afterDataset gmfm gme client disallow_edits
        external_url_base true false metrics model cd mk₁ [] ds := by
      unfold processModel
      simp only [hpop, hcert, h₁]
      simp only [List.length_singleton, gt_iff_lt, Nat.lt_irrefl, if_false, List.head?]
    obtain ⟨rest, hr⟩ := htrace []
    exact ⟨[], rest, Or.inl rfl, by rw [heqp]; simpa using hr, hupd⟩
  · have heqp : processModel gmfm gme client db disallow_edits external_url_base certification
        true false metrics model = afterDataset gmfm gme client disallow_edits
        external_url_base true false metrics model cd mk₁
        [ApiCall.create (create_dataset_payload db model)] ds := by
      unfold processModel
      simp only [hpop, hcert, h₁, h₂]
      simp only [List.length_nil, gt_iff_lt, List.head?]
      simp
    obtain ⟨rest, hr⟩ := htrace [ApiCall.create (create_dataset_payload db model)]
    exact ⟨[ApiCall.create (create_dataset_payload db model)], rest, Or.inr rfl,
      by rw [heqp]; exact hr, hupd⟩

/-- C1 witness: two concrete runs with one local metric — one against an
existing dataset, one where the dataset is freshly created — where the
primary call carries the empty metrics list and the secondary call
carries exactly the local metric definition. -/
theorem c1_reload_two_phase_witness :
    (∃ pre rest,
      (pre = [] ∨ pre = [ApiCall.create (create_dataset_payload (dbFx "db1") modelFx)]) ∧
      (processModel gmfmFx gmeFx (clientFx [[("id", JVal.nat 5)]] [] [])
          (dbFx "db1") false "" none true false [metricFx] modelFx).1 =
        pre ++ ApiCall.update (JVal.nat 5) true
          (buildUpdatePayload modelFx
            (buildExtra modelFx (JVal.obj DEFAULT_CERTIFICATION) []).1 false true
            [metricFxDefinition]
            (buildExtra modelFx (JVal.obj DEFAULT_CERTIFICATION) []).2 "") ::
        ((if ([metricFxDefinition] : List Dict).isEmpty then [] else
          [ApiCall.update (JVal.nat 5) false
            [("metrics", JVal.arr ([metricFxDefinition].map JVal.obj))]]) ++ rest) ∧
      alookup (buildUpdatePayload modelFx
        (buildExtra modelFx (JVal.obj DEFAULT_CERTIFICATION) []).1 false true
        [metricFxDefinition]
        (buildExtra modelFx (JVal.obj DEFAULT_CERTIFICATION) []).2 "") "metrics" =
        some (JVal.arr [])) ∧
    (∃ pre rest,
      (pre = [] ∨ pre = [ApiCall.create (create_dataset_payload (dbFx "db1") modelFx)]) ∧
      (processModel gmfmFx gmeFx (clientCreateFx [("id", JVal.nat 5)])
          (dbFx "db1") false "" none true false [metricFx] modelFx).1 =
        pre ++ ApiCall.update (JVal.nat 5) true
          (buildUpdatePayload modelFx
            (buildExtra modelFx (JVal.obj DEFAULT_CERTIFICATION) []).1 false true
            [metricFxDefinition]
            (buildExtra modelFx (JVal.obj DEFAULT_CERTIFICATION) []).2 "") ::
        ((if ([metricFxDefinition] : List Dict).isEmpty then [] else
          [ApiCall.update (JVal.nat 5) false
            [("metrics", JVal.arr ([metricFxDefinition].map JVal.obj))]]) ++ rest) ∧
      alookup (buildUpdatePayload modelFx
        (buildExtra modelFx (JVal.obj DEFAULT_CERTIFICATION) []).1 false true
        [metricFxDefinition]
        (buildExtra modelFx (JVal.obj DEFAULT_CERTIFICATION) []).2 "") "metrics" =
        some (JVal.arr [])) :=
  ⟨c1_reload_two_phase_metrics gmfmFx gmeFx (clientFx [[("id", JVal.nat 5)]] [] [])
    (dbFx "db1") false "" none [metricFx] modelFx [] []
    (JVal.obj DEFAULT_CERTIFICATION) [] [("id", JVal.nat 5)] (JVal.nat 5)
    [metricFxDefinition] rfl rfl rfl (Or.inl rfl) rfl rfl,
   c1_reload_two_phase_metrics gmfmFx gmeFx (clientCreateFx [("id", JVal.nat 5)])
    (dbFx "db1") false "" none [metricFx] modelFx [] []
    (JVal.obj DEFAULT_CERTIFICATION) [] [("id", JVal.nat 5)] (JVal.nat 5)
    [metricFxDefinition] rfl rfl rfl (Or.inr ⟨rfl, rfl⟩) rfl rfl⟩

mutual

/-- `JVal.beq` is reflexive. -/
theorem JVal.beq_refl : (v : JVal) → JVal.beq v v = true
  | .null => rfl
  | .bool b => by simp [JVal.beq]
  | .nat n => by simp [JVal.beq]
  | .str s => by simp [JVal.beq]
  | .arr xs => by simp [JVal.beq, JVal.beqList_refl xs]
  | .obj fs => by simp [JVal.beq, JVal.beqFields_refl fs]

/-- `JVal.beqList` is reflexive. -/
theorem JVal.beqList_refl : (xs : List JVal) → JVal.beqList xs xs = true
  | [] => rfl
  | x :: xs => by simp [JVal.beqList, JVal.beq_refl x, JVal.beqList_refl xs]

/-- `JVal.beqFields` is reflexive. -/
theorem JVal.beqFields_refl : (fs : List (String × JVal)) → JVal.beqFields fs fs = true
  | [] => rfl
  | (k, v) :: fs => by simp [JVal.beqFields, JVal.beq_refl v, JVal.beqFields_refl fs]

end

/-- A successful lookup exhibits a member. -/
theorem alookup_mem {α : Type} (d : List (String × α)) (k : String) (v : α)
    (h : alookup d k = some v) : (k, v) ∈ d := by
  induction d with
  | nil => simp [alookup] at h
  | cons hd tl ih =>
    obtain ⟨k₂, v₂⟩ := hd
    by_cases h₂ : k₂ = k
    · subst h₂
      simp [alookup] at h
      subst h
      simp
    · simp only [alookup, if_neg h₂] at h
      exact List.mem_cons_of_mem _ (ih h)

/-- `jvalEqStr` decides equality with a string value. -/
theorem jvalEqStr_iff (u : JVal) (s : String) : jvalEqStr u s = true ↔ u = JVal.str s := by
  cases u <;> simp [jvalEqStr]

/-- `==` against a string value decides equality with it. -/
theorem beq_str_iff (u : JVal) (s : String) : (u == JVal.str s) = true ↔ u = JVal.str s := by
  cases u <;> simp [BEq.beq, JVal.beq]

/-- Members of a `jinsert` are the inserted pair (possibly under the
original stored key, equal modulo `==`) or previous members. -/
theorem mem_jinsert {α : Type} (d : List (JVal × α)) (k : JVal) (v : α) (p : JVal × α)
    (h : p ∈ jinsert d k v) : (p.2 = v ∧ (p.1 == k) = true) ∨ p ∈ d := by
  induction d with
  | nil =>
    simp [jinsert] at h
    subst h
    exact Or.inl ⟨rfl, by simp [BEq.beq, JVal.beq_refl]⟩
  | cons hd tl ih =>
    obtain ⟨k₂, v₂⟩ := hd
    by_cases h₂ : (k₂ == k) = true
    · simp only [jinsert, if_pos h₂] at h
      rcases List.mem_cons.mp h with h₃ | h₃
      · subst h₃
        exact Or.inl ⟨rfl, h₂⟩
      · exact Or.inr (List.mem_cons_of_mem _ h₃)
    · simp only [jinsert, if_neg h₂] at h
      rcases List.mem_cons.mp h with h₃ | h₃
      · subst h₃
        exact Or.inr (List.mem_cons_self _ _)
      · rcases ih h₃ with h₄ | h₄
        · exact Or.inl h₄
        · exact Or.inr (List.mem_cons_of_mem _ h₄)

/-- Every entry of the keyed remote-metric dict stores, as its
`metric_name` field, a value `==`-equal to its key (Python keeps the
original key object on re-assignment). -/
theorem keyRemoteMetrics_invariant (ms : List Dict) (cur : List (JVal × Dict))
    (h : keyRemoteMetrics ms = Except.ok cur) :
    ∀ p ∈ cur, ∃ k, alookup p.2 "metric_name" = some k ∧ (p.1 == k) = true := by
  suffices haux : ∀ (acc : List (JVal × Dict)),
      (∀ p ∈ acc, ∃ k, alookup p.2 "metric_name" = some k ∧ (p.1 == k) = true) →
      List.foldlM (fun acc m =>
        match alookup m "metric_name" with
        | some k => Except.ok (jinsert acc k m)
        | none => Except.error "KeyError") acc ms = Except.ok cur →
      ∀ p ∈ cur, ∃ k, alookup p.2 "metric_name" = some k ∧ (p.1 == k) = true by
    exact haux [] (by simp) h
  clear h
  induction ms with
  | nil =>
    intro acc hacc h
    simp only [List.foldlM_nil] at h
    injection h with h₂
    subst h₂
    exact hacc
  | cons m ms ih =>
    intro acc hacc h
    rw [List.foldlM_cons] at h
    cases hmn : alookup m "metric_name" with
    | none =>
      rw [hmn] at h
      have h₂ : (Except.error "KeyError" : Except String (List (JVal × Dict))) =
          Except.ok cur := h
      simp at h₂
    | some k =>
      rw [hmn] at h
      have h₂ : List.foldlM (fun acc m =>
          match alookup m "metric_name" with
          | some k => Except.ok (jinsert acc k m)
          | none => Except.error "KeyError") (jinsert acc k m) ms = Except.ok cur := h
      refine ih (jinsert acc k m) ?_ h₂
      intro p hp
      rcases mem_jinsert acc k m p hp with ⟨h₂, h₃⟩ | h₂
      · exact ⟨k, by rw [h₂]; exact hmn, h₃⟩
      · exact hacc p h₂

/-- `clean_metadata` preserves the `metric_name` field. -/
theorem alookup_clean_metadata_metric_name (d : Dict) :
    alookup (clean_metadata d) "metric_name" = alookup d "metric_name" := by
  induction d with
  | nil => rfl
  | cons hd tl ih =>
    obtain ⟨k₂, v₂⟩ := hd
    by_cases h₂ : k₂ = "metric_name"
    · subst h₂
      simp [clean_metadata, alookup]
    · by_cases hdrop : (k₂ == "changed_on" || k₂ == "created_on" || k₂ == "type_generic") = true
      · simp only [clean_metadata, List.filter_cons] at ih ⊢
        simp [hdrop, alookup, h₂, ih]
        rw [← ih]
        simp [clean_metadata]
      · simp only [clean_metadata, List.filter_cons] at ih ⊢
        simp [hdrop, alookup, h₂]
        rw [← ih]
        simp [clean_metadata]

/-- A metric update record built for local metric `n` (declared without a
`meta.superset` block) carries `n` as its `metric_name`. -/
theorem buildMetricDefinition_metric_name
    (gme : String → List (String × MetricSchema) → String)
    (mm : List (String × MetricSchema)) (cur : List (JVal × Dict))
    (n : String) (m : MetricSchema) (d : Dict)
    (hsup : alookup m.meta "superset" = none)
    (h : buildMetricDefinition gme mm cur true n m = Except.ok d) :
    alookup d "metric_name" = some (JVal.str n) := by
  unfold buildMetricDefinition popSuperset at h
  simp only [hsup, if_true, ite_true] at h
  cases hj : jalookupStr cur n with
  | none =>
    simp only [hj] at h
    injection h with h₂
    subst h₂
    rfl
  | some rm =>
    simp only [hj] at h
    cases hi : alookup rm "id" with
    | none =>
      simp only [hi] at h
      simp at h
    | some idv =>
      simp only [hi] at h
      injection h with h₂
      subst h₂
      rfl

/-- Counting a name across `mapM`-built records equals counting it across
the inputs, given the pointwise name correspondence. -/
theorem mapM_countP_metricNamed
    (f : (String × MetricSchema) → Except String Dict)
    (xs : List (String × MetricSchema)) (l : List Dict) (name : String)
    (h : xs.mapM f = Except.ok l)
    (hpt : ∀ x ∈ xs, ∀ d, f x = Except.ok d → metricNamed name d = (x.1 == name)) :
    l.countP (metricNamed name) = xs.countP (fun x => x.1 == name) := by
  induction xs generalizing l with
  | nil =>
    simp only [List.mapM_nil] at h
    injection h with h₂
    subst h₂
    rfl
  | cons x xs ih =>
    rw [List.mapM_cons] at h
    cases hfx : f x with
    | error e =>
      rw [hfx] at h
      have h₂ : (Except.error e : Except String (List Dict)) = Except.ok l := h
      simp at h₂
    | ok d =>
      rw [hfx] at h
      cases hms : xs.mapM f with
      | error e =>
        rw [hms] at h
        have h₂ : (Except.error e : Except String (List Dict)) = Except.ok l := h
        simp at h₂
      | ok l₂ =>
        rw [hms] at h
        have h₂ : (Except.ok (d :: l₂) : Except String (List Dict)) = Except.ok l := h
        injection h₂ with h₃
        subst h₃
        rw [List.countP_cons, List.countP_cons, ih l₂ hms
          (fun y hy => hpt y (List.mem_cons_of_mem _ hy)),
          hpt x (List.mem_cons_self _ _) d hfx]

/-- A member's successful image under `mapM` is a member of the result. -/
theorem mapM_mem_of_ok
    (f : (String × MetricSchema) → Except String Dict)
    (xs : List (String × MetricSchema)) (l : List Dict)
    (x : String × MetricSchema) (d : Dict)
    (hx : x ∈ xs) (h : xs.mapM f = Except.ok l) (hfx : f x = Except.ok d) :
    d ∈ l := by
  induction xs generalizing l with
  | nil => simp at hx
  | cons y ys ih =>
    rw [List.mapM_cons] at h
    cases hfy : f y with
    | error e =>
      rw [hfy] at h
      have h₂ : (Except.error e : Except String (List Dict)) = Except.ok l := h
      simp at h₂
    | ok dy =>
      rw [hfy] at h
      cases hms : ys.mapM f with
      | error e =>
        rw [hms] at h
        have h₂ : (Except.error e : Except String (List Dict)) = Except.ok l := h
        simp at h₂
      | ok l₂ =>
        rw [hms] at h
        have h₂ : (Except.ok (dy :: l₂) : Except String (List Dict)) = Except.ok l := h
        injection h₂ with h₃
        subst h₃
        rcases List.mem_cons.mp hx with hx₂ | hx₂
        · subst hx₂
          rw [hfy] at hfx
          injection hfx with h₄
          subst h₄
          exact List.mem_cons_self _ _
        · exact List.mem_cons_of_mem _ (ih l₂ hx₂ hms)

/-- In a dict with pairwise-distinct keys, a present key is counted
exactly once. -/
theorem countP_keys_eq_one {α : Type} (d : List (String × α)) (k : String) (v : α)
    (hnd : (d.map Prod.fst).Nodup) (h : alookup d k = some v) :
    d.countP (fun p => p.1 == k) = 1 := by
  induction d with
  | nil => simp [alookup] at h
  | cons hd tl ih =>
    obtain ⟨k₂, v₂⟩ := hd
    simp only [List.map_cons, List.nodup_cons] at hnd
    by_cases h₂ : k₂ = k
    · subst h₂
      rw [List.countP_cons]
      have hz : tl.countP (fun p => p.1 == k₂) = 0 := by
        rw [List.countP_eq_zero]
        intro p hp h₃
        exact hnd.1 (by
          have : p.1 = k₂ := by simpa using h₃
          rw [← this]
          exact List.mem_map_of_mem Prod.fst hp)
      simp [hz]
    · simp only [alookup, if_neg h₂] at h
      rw [List.countP_cons]
      have : ((k₂, v₂).1 == k) = false := by
        simp [h₂]
      simp [this, ih hnd.2 h]

/-- C5: with `merge_metadata=True`, each locally declared metric (with no
`meta.superset` overrides) whose name also names a remote metric yields
exactly one entry in the metrics update payload, and that entry carries
the remote metric's server id together with the locally declared
expression, metric_name, metric_type, verbose_name and description. -/
theorem c5_merge_metadata_overlapping_metric
    (gme : String → List (String × MetricSchema) → String)
    (reload_columns : Bool) (remote : List Dict)
    (mm : List (String × MetricSchema)) (cur : List (JVal × Dict)) (dm : List Dict)
    (name : String) (metric : MetricSchema) (rm : Dict) (idv : JVal)
    (hnd : (mm.map Prod.fst).Nodup)
    (hsup : ∀ p ∈ mm, alookup p.2.meta "superset" = none)
    (hm : alookup mm name = some metric)
    (hcdm : computeDatasetMetrics gme reload_columns true remote mm = Except.ok (cur, dm))
    (hcur : jalookupStr cur name = some rm)
    (hid : alookup rm "id" = some idv) :
    dm.countP (metricNamed name) = 1 ∧
    [("expression", JVal.str (gme name mm)),
     ("metric_name", JVal.str name),
     ("metric_type", optStr (pyOrStr metric.type metric.calculation_method)),
     ("verbose_name", JVal.str (metric.label.getD name)),
     ("description", JVal.str (metric.description.getD "")),
     ("extra", JVal.str (jsonDumps (JVal.obj metric.meta))),
     ("id", idv)] ∈ dm := by
  unfold computeDatasetMetrics at hcdm
  simp only [Bool.or_true, if_true, ite_true] at hcdm
  cases hkr : keyRemoteMetrics remote with
  | error e =>
    rw [hkr] at hcdm
    simp at hcdm
  | ok cur₀ =>
    simp only [hkr] at hcdm
    cases hbl : builtLocal gme mm cur₀ reload_columns true with
    | error e =>
      simp only [hbl] at hcdm
      simp at hcdm
    | ok built =>
      simp only [hbl] at hcdm
      injection hcdm with hpair
      injection hpair with hc₁ hc₂
      subst hc₁
      subst hc₂
      have hbuilt : mm.mapM (fun p => buildMetricDefinition gme mm cur₀ true p.1 p.2) =
          Except.ok built := by
        unfold builtLocal at hbl
        simpa only [Bool.or_true, List.filter_true] using hbl
      have hsupN : alookup metric.meta "superset" = none :=
        hsup (name, metric) (alookup_mem mm name metric hm)
      have hfdef : buildMetricDefinition gme mm cur₀ true name metric = Except.ok
          [("expression", JVal.str (gme name mm)),
           ("metric_name", JVal.str name),
           ("metric_type", optStr (pyOrStr metric.type metric.calculation_method)),
           ("verbose_name", JVal.str (metric.label.getD name)),
           ("description", JVal.str (metric.description.getD "")),
           ("extra", JVal.str (jsonDumps (JVal.obj metric.meta))),
           ("id", idv)] := by
        unfold buildMetricDefinition popSuperset
        simp only [hsupN, hcur, hid, if_true, ite_true]
        rfl
      have hkept0 : (keptRemote true cur₀ mm).countP (metricNamed name) = 0 := by
        rw [List.countP_eq_zero]
        intro d hd hc
        unfold keptRemote at hd
        rcases List.mem_map.mp hd with ⟨p, hpf, hdp⟩
        have hpc := List.of_mem_filter hpf
        have hpm := List.mem_of_mem_filter hpf
        have hany : (mm.any fun q => jvalEqStr p.1 q.1) = false := by
          simpa using hpc
        obtain ⟨k₃, hk₁, hk₂⟩ := keyRemoteMetrics_invariant remote cur₀ hkr p hpm
        rw [← hdp] at hc
        unfold metricNamed at hc
        rw [alookup_clean_metadata_metric_name, hk₁] at hc
        have hk₄ : k₃ = JVal.str name := (jvalEqStr_iff k₃ name).mp hc
        subst hk₄
        have hp₁ : p.1 = JVal.str name := (beq_str_iff p.1 name).mp hk₂
        have hne := List.any_eq_false.mp hany ⟨name, metric⟩ (alookup_mem mm name metric hm)
        apply hne
        rw [hp₁]
        simp [jvalEqStr]
      have hpt : ∀ x ∈ mm, ∀ d,
          (fun p : String × MetricSchema =>
            buildMetricDefinition gme mm cur₀ true p.1 p.2) x = Except.ok d →
          metricNamed name d = (x.1 == name) := by
        intro x hx d hfd
        have hmn := buildMetricDefinition_metric_name gme mm cur₀ x.1 x.2 d (hsup x hx) hfd
        unfold metricNamed
        rw [hmn]
        by_cases he : x.1 = name <;> simp [jvalEqStr, he]
      have hbuilt1 : built.countP (metricNamed name) = 1 := by
        rw [mapM_countP_metricNamed _ mm built name hbuilt hpt]
        exact countP_keys_eq_one mm name metric hnd hm
      constructor
      · rw [List.countP_append, hkept0, hbuilt1]
      · exact List.mem_append_right _
          (mapM_mem_of_ok _ mm built (name, metric) _
            (alookup_mem mm name metric hm) hbuilt hfdef)

/-- C5 witness: merging with a remote metric also named `m2` (server id 9)
yields exactly one `m2` entry carrying id 9 and the local field values. -/
theorem c5_merge_metadata_witness :
    (List.countP (metricNamed "m2")
      [[("expression", JVal.str "SUM(m2)"), ("metric_name", JVal.str "m2"),
        ("metric_type", JVal.str "count"), ("verbose_name", JVal.str "m2"),
        ("description", JVal.str ""), ("extra", JVal.str "\x7b\x7d"),
        ("id", JVal.nat 9)]] = 1) ∧
    [("expression", JVal.str (gmeFx "m2" [("m2", metricFx)])),
     ("metric_name", JVal.str "m2"),
     ("metric_type", optStr (pyOrStr metricFx.type metricFx.calculation_method)),
     ("verbose_name", JVal.str (metricFx.label.getD "m2")),
     ("description", JVal.str (metricFx.description.getD "")),
     ("extra", JVal.str (jsonDumps (JVal.obj metricFx.meta))),
     ("id", JVal.nat 9)] ∈
      [[("expression", JVal.str "SUM(m2)"), ("metric_name", JVal.str "m2"),
        ("metric_type", JVal.str "count"), ("verbose_name", JVal.str "m2"),
        ("description", JVal.str ""), ("extra", JVal.str "\x7b\x7d"),
        ("id", JVal.nat 9)]] :=
  c5_merge_metadata_overlapping_metric gmeFx false [remoteM2Fx]
    [("m2", metricFx)] [(JVal.str "m2", remoteM2Fx)]
    [[("expression", JVal.str "SUM(m2)"), ("metric_name", JVal.str "m2"),
      ("metric_type", JVal.str "count"), ("verbose_name", JVal.str "m2"),
      ("description", JVal.str ""), ("extra", JVal.str "\x7b\x7d"),
      ("id", JVal.nat 9)]]
    "m2" metricFx remoteM2Fx (JVal.nat 9)
    (by simp)
    (by
      intro p hp
      simp at hp
      subst hp
      rfl)
    rfl rfl rfl rfl
